import Mathlib

/-!
Verification of the agent orchestration core of the ai-research-agent CLI.

The Rust source is shallowly embedded: strings are Lean Strings, the
completion backend and the search adapter (external collaborators) are
function parameters returning Except values, and the mutable conversation
history of the agent is threaded explicitly as a list of
(user query, assistant response) pairs.

Rust standard string operations used by the source (str::trim,
str::to_lowercase, str::contains, str::replace) are embedded as
executable functions over the character list of a String, so that every
definition evaluates inside the kernel.
-/

/-- Model of char-level whitespace used by trim (ASCII whitespace). -/
def isWsChar (c : Char) : Bool :=
  c == ' ' || c == '\t' || c == '\n' || c == '\r'

/-- Model of str::trim: drop whitespace from both ends. -/
def strTrim (s : String) : String :=
  ⟨((s.data.dropWhile isWsChar).reverse.dropWhile isWsChar).reverse⟩

/-- Model of str::to_lowercase (ASCII-level, enough for the command words). -/
def strToLower (s : String) : String :=
  ⟨s.data.map Char.toLower⟩

/-- Helper for strContains: does pat occur in the given character list? -/
def strContainsAux (pat : List Char) : List Char → Bool
  | [] => pat.isEmpty
  | c :: rest => pat.isPrefixOf (c :: rest) || strContainsAux pat rest

/-- Model of str::contains (substring containment). -/
def strContains (s pat : String) : Bool :=
  strContainsAux pat.data s.data

/-- Fuel-driven worker for strReplace; the fuel is the length of the
string, which suffices because each step consumes at least one character
when the pattern is non-empty. -/
def replaceFuel (pat rep : List Char) : Nat → List Char → List Char
  | 0, s => s
  | _ + 1, [] => []
  | n + 1, c :: rest =>
    if pat.isPrefixOf (c :: rest) then
      rep ++ replaceFuel pat rep n ((c :: rest).drop pat.length)
    else
      c :: replaceFuel pat rep n rest

/-- Model of str::replace for a non-empty pattern (the source only ever
replaces the non-empty pattern "{history}"). -/
def strReplace (s pat rep : String) : String :=
  if pat.data.isEmpty then s else ⟨replaceFuel pat.data rep.data s.data.length s.data⟩

/-- The chat-mode system prompt of src/agent.rs (CHAT_SYSTEM_PROMPT),
with the {history} placeholder. -/
def CHAT_SYSTEM_PROMPT : String := "
You are an AI research assistant. You help users by searching the web and summarizing findings.

SEARCH RULES (CRITICAL - FOLLOW EXACTLY):
1. You have access to a web_search tool
2. Search ONCE only - do not repeat searches
3. After the search completes, you MUST provide your final answer directly
4. Stop after one search - do NOT call web_search again
5. Your response should include sources (URLs)

CONVERSATION HISTORY:
{history}

When the user asks a question:
- Search once using web_search
- After receiving results, give a complete answer with sources
- Do not ask follow-up questions or call tools again
"

/-- A completion request handed to the backend: the rendered preamble,
the (enhanced) user message, and the multi_turn budget. -/
structure CompletionRequest where
  preamble : String
  message : String
  turnBudget : Nat

/-- A search result as produced by the search adapter. -/
structure SearchResult where
  title : String
  snippet : String
  url : String

/-- Rendering of a single history turn, from the closure in
ResearchAgent::chat: format!("[Turn {}]\nUser: {}\nAI: {}", i + 1, q, a). -/
def renderTurn (n : Nat) (q a : String) : String :=
  "[Turn " ++ toString n ++ "]\nUser: " ++ q ++ "\nAI: " ++ a

/-- The history block built by ResearchAgent::chat: the sentinel for an
empty history, otherwise the enumerated turns joined by a blank line. -/
def renderHistory (history : List (String × String)) : String :=
  if history.isEmpty then
    "No previous conversation."
  else
    String.intercalate "\n\n"
      (history.enum.map (fun p => renderTurn (p.1 + 1) p.2.1 p.2.2))

/-- The enhanced user message built by ResearchAgent::chat. -/
def enhancedQuery (query : String) : String :=
  "Research and answer the following question. Use the web_search tool to find current information, then provide a comprehensive summary with sources:\n\n" ++ query

/-- The completion request that ResearchAgent::chat submits: preamble is
the chat system prompt with {history} replaced by the rendered history,
the message is the enhanced query, and multi_turn(5) is the turn budget. -/
def chatRequest (history : List (String × String)) (query : String) : CompletionRequest :=
  ⟨strReplace CHAT_SYSTEM_PROMPT "{history}" (renderHistory history),
   enhancedQuery query, 5⟩

/-- ResearchAgent::chat: submit the request to the backend; on success
append (query, response) to the history and return the response; on
failure wrap the error and leave the history unchanged.  The returned
pair is (result, history after the call). -/
def chat (backend : CompletionRequest → Except String String)
    (history : List (String × String)) (query : String) :
    Except String String × List (String × String) :=
  match backend (chatRequest history query) with
  | Except.ok response => (Except.ok response, history ++ [(query, response)])
  | Except.error e => (Except.error ("Agent execution failed: " ++ e), history)

/-- ResearchAgent::clear_history: self.history.clear(). -/
def clear_history (_history : List (String × String)) : List (String × String) :=
  []

/-- Rendering of one numbered search result in ResearchAgent::quick_search:
format!("{}. **{}**\n   {}\n   URL: {}\n", i + 1, r.title, r.snippet, r.url). -/
def formatResult (n : Nat) (r : SearchResult) : String :=
  toString n ++ ". **" ++ r.title ++ "**\n   " ++ r.snippet ++ "\n   URL: " ++ r.url ++ "\n"

/-- ResearchAgent::quick_search: call the search adapter once; report a
literal no-results message for an empty result list, otherwise the
numbered entries joined by a newline under a heading. -/
def quick_search (adapter : String → Except String (List SearchResult))
    (query : String) : Except String String :=
  match adapter query with
  | Except.error e => Except.error ("Search failed: " ++ e)
  | Except.ok results =>
    if results.isEmpty then
      Except.ok ("No results found for: " ++ query)
    else
      Except.ok ("## Search Results\n\n" ++
        String.intercalate "\n"
          (results.enum.map (fun p => formatResult (p.1 + 1) p.2)))

/-- The two remediation hints of the error classifier in src/main.rs. -/
inductive Hint where
  | startOllama
  | installModel
deriving DecidableEq

/-- The error classifier of src/main.rs (identical in handle_result and in
run_interactive): connection-refused messages get the start-Ollama hint,
otherwise messages containing "model" get the install-model hint,
otherwise no hint. -/
def classifyHint (msg : String) : Option Hint :=
  if strContains msg "connection refused" then some Hint.startOllama
  else if strContains msg "model" then some Hint.installModel
  else none

/-- handle_result of src/main.rs: the pair of (propagated result, printed
hint); the error value itself is returned unchanged. -/
def handle_result (result : Except String String) :
    Except String String × Option Hint :=
  match result with
  | Except.ok r => (Except.ok r, none)
  | Except.error e => (Except.error e, classifyHint e)

/-- What one iteration of the interactive loop does with a line. -/
inductive LoopAction where
  | quit
  | cleared
  | ignored
  | answered (response : String)
  | failed (err : String) (hint : Option Hint)

/-- Whether the interactive loop keeps running after an action (only the
quit/exit command breaks it). -/
def continuesLoop : LoopAction → Bool
  | LoopAction.quit => false
  | _ => true

/-- One iteration of run_interactive in src/main.rs: trim the raw line,
match its lowercase form against the commands quit/exit, clear, and the
blank line, and otherwise pass the trimmed line to chat; a chat failure
is reported together with the classifier hint and the loop continues. -/
def processLine (backend : CompletionRequest → Except String String)
    (history : List (String × String)) (rawInput : String) :
    LoopAction × List (String × String) :=
  let input := strTrim rawInput
  let cmd := strToLower input
  if cmd = "quit" ∨ cmd = "exit" then (LoopAction.quit, history)
  else if cmd = "clear" then (LoopAction.cleared, clear_history history)
  else if cmd = "" then (LoopAction.ignored, history)
  else
    match chat backend history input with
    | (Except.ok r, h2) => (LoopAction.answered r, h2)
    | (Except.error e, h2) => (LoopAction.failed e (classifyHint e), h2)

/-- Run a sequence of chat calls in order, threading the history; fails
(returns none) as soon as one call fails. -/
def runChats (backend : CompletionRequest → Except String String) :
    List (String × String) → List String → Option (List (String × String))
  | h, [] => some h
  | h, q :: qs =>
    match chat backend h q with
    | (Except.ok _, h2) => runChats backend h2 qs
    | (Except.error _, _) => none

/-- The (query, response) pairs of a sequence of successful chat calls, in
call order; none as soon as one call fails. -/
def chatTranscript (backend : CompletionRequest → Except String String) :
    List (String × String) → List String → Option (List (String × String))
  | _, [] => some []
  | h, q :: qs =>
    match chat backend h q with
    | (Except.ok r, h2) => (chatTranscript backend h2 qs).map (fun rest => (q, r) :: rest)
    | (Except.error _, _) => none

/-- Spec-side rendering of the history turns: 1-indexed, chronological,
one block per turn (from the Prompt Templater wording in the spec). -/
def renderTurnsFrom : Nat → List (String × String) → List String
  | _, [] => []
  | n, (q, a) :: rest => renderTurn n q a :: renderTurnsFrom (n + 1) rest

/-- Spec-side rendering of the numbered search-result entries: numbered
from 1 upward, in adapter order. -/
def formatResultsFrom : Nat → List SearchResult → List String
  | _, [] => []
  | n, r :: rest => formatResult n r :: formatResultsFrom (n + 1) rest

/-- Backend used by the concrete witnesses: always succeeds. -/
def okBackend : CompletionRequest → Except String String :=
  fun _ => Except.ok "the answer"

/-- Backend used by the concrete witnesses: always fails. -/
def failBackend : CompletionRequest → Except String String :=
  fun _ => Except.error "connection refused"

/-- Adapter used by the concrete witnesses: two fixed results. -/
def twoResultsAdapter : String → Except String (List SearchResult) :=
  fun _ => Except.ok [⟨"T1", "S1", "U1"⟩, ⟨"T2", "S2", "U2"⟩]

/-- Adapter used by the concrete witnesses: no results. -/
def emptyAdapter : String → Except String (List SearchResult) :=
  fun _ => Except.ok []

/-- Claim C10: clear_history always leaves the conversation history empty
regardless of its prior length, has no error conditions, and is
idempotent. -/
theorem clear_history_empties_and_idempotent (h : List (String × String)) :
    clear_history h = [] ∧
    clear_history ([] : List (String × String)) = [] ∧
    clear_history (clear_history h) = clear_history h :=
  ⟨rfl, rfl, rfl⟩

/-- Claim C2: if chat returns an error, the history after the call is
exactly the history before the call. -/
theorem chat_failure_preserves_history
    (backend : CompletionRequest → Except String String)
    (h : List (String × String)) (q e : String)
    (herr : (chat backend h q).1 = Except.error e) :
    (chat backend h q).2 = h := by
  unfold chat at herr ⊢
  cases hb : backend (chatRequest h q) with
  | ok r => rw [hb] at herr; exact absurd herr (by simp)
  | error e2 => exact rfl

/-- Witness for C2 at a concrete failing backend. -/
theorem chat_failure_preserves_history_witness :
    (chat failBackend [("a", "b")] "q").1 =
      Except.error "Agent execution failed: connection refused" ∧
    (chat failBackend [("a", "b")] "q").2 = [("a", "b")] :=
  ⟨rfl, chat_failure_preserves_history failBackend [("a", "b")] "q"
    "Agent execution failed: connection refused" rfl⟩

/-- Claim C3: every chat call submits its completion request with a turn
budget of exactly 5, and the outcome of chat depends on the backend only
through its answer to that one request. -/
theorem chat_turn_budget_five
    (backend backend2 : CompletionRequest → Except String String)
    (h : List (String × String)) (q : String) :
    (chatRequest h q).turnBudget = 5 ∧
    (backend (chatRequest h q) = backend2 (chatRequest h q) →
      chat backend h q = chat backend2 h q) := by
  refine ⟨rfl, fun he => ?_⟩
  unfold chat
  rw [he]

/-- Witness for C3 at a concrete backend. -/
theorem chat_turn_budget_five_witness :
    (chatRequest [] "q").turnBudget = 5 ∧
    chat okBackend [] "q" = chat okBackend [] "q" :=
  ⟨(chat_turn_budget_five okBackend okBackend [] "q").1,
   (chat_turn_budget_five okBackend okBackend [] "q").2 rfl⟩

/-- On a successful call, chat appends exactly (query, response) to the
history it was given. -/
theorem chat_ok_appends (backend : CompletionRequest → Except String String)
    (h : List (String × String)) (q r : String) (h2 : List (String × String))
    (hc : chat backend h q = (Except.ok r, h2)) :
    h2 = h ++ [(q, r)] := by
  unfold chat at hc
  cases hb : backend (chatRequest h q) with
  | ok r2 =>
    rw [hb] at hc
    simp only [Prod.mk.injEq, Except.ok.injEq] at hc
    rw [← hc.2, hc.1]
  | error e =>
    rw [hb] at hc
    simp at hc

/-- The final history of a sequence of successful chat calls is the
initial history followed by the transcript of the calls, whose queries
are exactly the submitted queries in order. -/
theorem chatTranscript_runChats (backend : CompletionRequest → Except String String)
    (qs : List String) :
    ∀ h0 pairs : List (String × String),
      chatTranscript backend h0 qs = some pairs →
      runChats backend h0 qs = some (h0 ++ pairs) ∧ pairs.map Prod.fst = qs := by
  induction qs with
  | nil =>
    intro h0 pairs ht
    simp only [chatTranscript, Option.some.injEq] at ht
    subst ht
    simp [runChats]
  | cons q qs ih =>
    intro h0 pairs ht
    simp only [chatTranscript] at ht
    rcases hc : chat backend h0 q with ⟨res, h2⟩
    rw [hc] at ht
    cases res with
    | ok r =>
      simp only [Option.map_eq_some'] at ht
      obtain ⟨rest, hrest, hpairs⟩ := ht
      have happ : h2 = h0 ++ [(q, r)] := chat_ok_appends backend h0 q r h2 hc
      subst happ
      obtain ⟨ih1, ih2⟩ := ih (h0 ++ [(q, r)]) rest hrest
      subst hpairs
      refine ⟨?_, by simp [ih2]⟩
      simp only [runChats]
      rw [hc]
      show runChats backend (h0 ++ [(q, r)]) qs = some (h0 ++ (q, r) :: rest)
      rw [ih1]
      simp
    | error e =>
      simp at ht

/-- Claim C1: after a sequence of N successful chat calls starting from an
empty history, the history has exactly N entries and entry i is the
(query, response) pair of the i-th call, in call order, storing the
original query. -/
theorem chat_history_accumulates (backend : CompletionRequest → Except String String)
    (qs : List String) (pairs : List (String × String))
    (ht : chatTranscript backend [] qs = some pairs) :
    runChats backend [] qs = some pairs ∧
    pairs.length = qs.length ∧
    pairs.map Prod.fst = qs := by
  obtain ⟨h1, h2⟩ := chatTranscript_runChats backend qs [] pairs ht
  refine ⟨by simpa using h1, ?_, h2⟩
  have := congrArg List.length h2
  simpa using this

/-- Witness for C1: two successful calls against a concrete backend. -/
theorem chat_history_accumulates_witness :
    runChats okBackend [] ["q1", "q2"] =
      some [("q1", "the answer"), ("q2", "the answer")] ∧
    ([("q1", "the answer"), ("q2", "the answer")] : List (String × String)).length =
      ["q1", "q2"].length ∧
    ([("q1", "the answer"), ("q2", "the answer")] : List (String × String)).map Prod.fst =
      ["q1", "q2"] :=
  chat_history_accumulates okBackend ["q1", "q2"]
    [("q1", "the answer"), ("q2", "the answer")] rfl

/-- The enumerate-based rendering of the turns equals the 1-indexed
recursive rendering. -/
theorem enumFrom_map_renderTurn (l : List (String × String)) :
    ∀ n : Nat,
      (List.enumFrom n l).map (fun p => renderTurn (p.1 + 1) p.2.1 p.2.2) =
        renderTurnsFrom (n + 1) l := by
  induction l with
  | nil => intro n; rfl
  | cons p rest ih =>
    intro n
    obtain ⟨q, a⟩ := p
    simp only [List.enumFrom, List.map_cons, renderTurnsFrom]
    rw [ih (n + 1)]

/-- The recursive rendering produces one block per turn. -/
theorem renderTurnsFrom_length (l : List (String × String)) :
    ∀ n : Nat, (renderTurnsFrom n l).length = l.length := by
  induction l with
  | nil => intro n; rfl
  | cons p rest ih =>
    intro n
    obtain ⟨q, a⟩ := p
    simp only [renderTurnsFrom, List.length_cons, ih (n + 1)]

/-- Claim C4: for a non-empty history, the rendered history block is the
1-indexed chronological turn blocks joined by a blank line, one block
per turn. -/
theorem renderHistory_turns_in_order (h : List (String × String)) (hne : h ≠ []) :
    renderHistory h = String.intercalate "\n\n" (renderTurnsFrom 1 h) ∧
    (renderTurnsFrom 1 h).length = h.length := by
  refine ⟨?_, renderTurnsFrom_length h 1⟩
  cases h with
  | nil => exact absurd rfl hne
  | cons p rest =>
    simp only [renderHistory, List.isEmpty_cons, Bool.false_eq_true, if_false]
    exact congrArg (String.intercalate "\n\n") (enumFrom_map_renderTurn (p :: rest) 0)

/-- Witness for C4 at a concrete two-turn history. -/
theorem renderHistory_turns_in_order_witness :
    ([("q1", "a1"), ("q2", "a2")] : List (String × String)) ≠ [] ∧
    (renderHistory [("q1", "a1"), ("q2", "a2")] =
       String.intercalate "\n\n" (renderTurnsFrom 1 [("q1", "a1"), ("q2", "a2")]) ∧
     (renderTurnsFrom 1 [("q1", "a1"), ("q2", "a2")]).length =
       ([("q1", "a1"), ("q2", "a2")] : List (String × String)).length) :=
  ⟨List.cons_ne_nil _ _,
   renderHistory_turns_in_order [("q1", "a1"), ("q2", "a2")] (List.cons_ne_nil _ _)⟩

set_option maxRecDepth 10000

/-- Claim C5: with an empty history the fixed sentinel is rendered (never
the empty string) and substituted for the {history} placeholder, so the
rendered preamble contains the sentinel. -/
theorem empty_history_renders_sentinel (q : String) :
    renderHistory [] = "No previous conversation." ∧
    (chatRequest [] q).preamble =
      strReplace CHAT_SYSTEM_PROMPT "{history}" "No previous conversation." ∧
    strContains (chatRequest [] q).preamble "No previous conversation." = true ∧
    0 < (renderHistory []).length :=
  ⟨rfl, rfl, rfl, by decide⟩

/-- The enumerate-based formatting of the results equals the 1-indexed
recursive formatting. -/
theorem enumFrom_map_formatResult (l : List SearchResult) :
    ∀ n : Nat,
      (List.enumFrom n l).map (fun p => formatResult (p.1 + 1) p.2) =
        formatResultsFrom (n + 1) l := by
  induction l with
  | nil => intro n; rfl
  | cons r rest ih =>
    intro n
    simp only [List.enumFrom, List.map_cons, formatResultsFrom]
    rw [ih (n + 1)]

/-- The recursive formatting produces one entry per result. -/
theorem formatResultsFrom_length (l : List SearchResult) :
    ∀ n : Nat, (formatResultsFrom n l).length = l.length := by
  induction l with
  | nil => intro n; rfl
  | cons r rest ih =>
    intro n
    simp only [formatResultsFrom, List.length_cons, ih (n + 1)]

/-- Claim C6: on K >= 1 adapter results, quick_search succeeds with the
entries numbered from 1 in adapter order, one entry per result, each
entry built from that result's title, snippet and URL. -/
theorem quick_search_formats_all_results
    (adapter : String → Except String (List SearchResult)) (q : String)
    (rs : List SearchResult) (hok : adapter q = Except.ok rs) (hne : rs ≠ []) :
    quick_search adapter q =
      Except.ok ("## Search Results\n\n" ++
        String.intercalate "\n" (formatResultsFrom 1 rs)) ∧
    (formatResultsFrom 1 rs).length = rs.length := by
  refine ⟨?_, formatResultsFrom_length rs 1⟩
  cases rs with
  | nil => exact absurd rfl hne
  | cons r rest =>
    unfold quick_search
    rw [hok]
    simp only [List.isEmpty_cons, Bool.false_eq_true, if_false]
    rw [show (r :: rest).enum.map (fun p => formatResult (p.1 + 1) p.2) =
          formatResultsFrom 1 (r :: rest) from enumFrom_map_formatResult (r :: rest) 0]

/-- Witness for C6 at a concrete two-result adapter. -/
theorem quick_search_formats_all_results_witness :
    twoResultsAdapter "rust" =
      Except.ok [(⟨"T1", "S1", "U1"⟩ : SearchResult), ⟨"T2", "S2", "U2"⟩] ∧
    (quick_search twoResultsAdapter "rust" =
       Except.ok ("## Search Results\n\n" ++
         String.intercalate "\n"
           (formatResultsFrom 1 [(⟨"T1", "S1", "U1"⟩ : SearchResult), ⟨"T2", "S2", "U2"⟩])) ∧
     (formatResultsFrom 1 [(⟨"T1", "S1", "U1"⟩ : SearchResult), ⟨"T2", "S2", "U2"⟩]).length =
       [(⟨"T1", "S1", "U1"⟩ : SearchResult), ⟨"T2", "S2", "U2"⟩].length) :=
  ⟨rfl, quick_search_formats_all_results twoResultsAdapter "rust"
    [⟨"T1", "S1", "U1"⟩, ⟨"T2", "S2", "U2"⟩] rfl (List.cons_ne_nil _ _)⟩

/-- Every character list is a prefix of itself under isPrefixOf. -/
theorem isPrefixOf_self (l : List Char) : l.isPrefixOf l = true := by
  induction l with
  | nil => rfl
  | cons c rest ih => simp [List.isPrefixOf, ih]

/-- A character list occurs in any list that ends with it. -/
theorem strContainsAux_append (pat : List Char) :
    ∀ pre : List Char, strContainsAux pat (pre ++ pat) = true := by
  intro pre
  induction pre with
  | nil =>
    cases pat with
    | nil => rfl
    | cons c rest =>
      simp only [List.nil_append, strContainsAux, isPrefixOf_self, Bool.true_or]
  | cons c pre ih =>
    simp only [List.cons_append, strContainsAux, List.append_eq, ih, Bool.or_true]

/-- A string contains any suffix of itself. -/
theorem strContains_append_right (a b : String) : strContains (a ++ b) b = true := by
  unfold strContains
  rw [String.data_append]
  exact strContainsAux_append b.data a.data

/-- Claim C7: on zero adapter results, quick_search succeeds with the
literal no-results message, which contains the query string. -/
theorem quick_search_no_results
    (adapter : String → Except String (List SearchResult)) (q : String)
    (hok : adapter q = Except.ok []) :
    quick_search adapter q = Except.ok ("No results found for: " ++ q) ∧
    strContains ("No results found for: " ++ q) q = true := by
  refine ⟨?_, strContains_append_right "No results found for: " q⟩
  unfold quick_search
  rw [hok]
  exact rfl

/-- Witness for C7 at a concrete empty adapter. -/
theorem quick_search_no_results_witness :
    emptyAdapter "nothing here" = Except.ok [] ∧
    (quick_search emptyAdapter "nothing here" =
       Except.ok ("No results found for: " ++ "nothing here") ∧
     strContains ("No results found for: " ++ "nothing here") "nothing here" = true) :=
  ⟨rfl, quick_search_no_results emptyAdapter "nothing here" rfl⟩

/-- Claim C8 counterexample: a failure message that mentions a missing
model but also carries the connection-refused signature is classified
with the start-backend hint, not the install-model hint, refuting the
claim that every failure mentioning a missing model yields the
install-model hint. -/
theorem classifyHint_model_counterexample :
    strContains "connection refused: model llama3.2 not found" "model" = true ∧
    classifyHint "connection refused: model llama3.2 not found" ≠ some Hint.installModel ∧
    classifyHint "connection refused: model llama3.2 not found" = some Hint.startOllama :=
  ⟨rfl, by decide, rfl⟩

/-- Claim C8 (amended): connection-refused messages yield the
start-backend hint; messages without the connection-refused signature but
mentioning a model yield the install-model hint; messages matching
neither signature yield no hint; and handle_result always propagates the
error value unchanged. -/
theorem classifyHint_with_precedence (e : String) :
    (handle_result (Except.error e)).1 = Except.error e ∧
    (strContains e "connection refused" = true →
      classifyHint e = some Hint.startOllama) ∧
    (strContains e "connection refused" = false → strContains e "model" = true →
      classifyHint e = some Hint.installModel) ∧
    (strContains e "connection refused" = false → strContains e "model" = false →
      classifyHint e = none) :=
  ⟨rfl,
   fun h1 => by simp [classifyHint, h1],
   fun h1 h2 => by simp [classifyHint, h1, h2],
   fun h1 h2 => by simp [classifyHint, h1, h2]⟩

/-- Witness for the amended C8 at a concrete connection-refused message. -/
theorem classifyHint_with_precedence_witness :
    (handle_result (Except.error "error: connection refused")).1 =
      Except.error "error: connection refused" ∧
    classifyHint "error: connection refused" = some Hint.startOllama :=
  ⟨(classifyHint_with_precedence "error: connection refused").1,
   (classifyHint_with_precedence "error: connection refused").2.1 rfl⟩

/-- Claim C9: one iteration of the interactive loop recognizes clear
(clearing the history and continuing), quit/exit (stopping the loop),
blank input (ignored), and passes any other trimmed line to chat; a chat
failure produces the classified error and the loop continues. -/
theorem interactive_loop_dispatch (backend : CompletionRequest → Except String String)
    (h : List (String × String)) (line : String) :
    (strToLower (strTrim line) = "clear" →
      processLine backend h line = (LoopAction.cleared, clear_history h) ∧
      continuesLoop LoopAction.cleared = true) ∧
    ((strToLower (strTrim line) = "quit" ∨ strToLower (strTrim line) = "exit") →
      processLine backend h line = (LoopAction.quit, h) ∧
      continuesLoop LoopAction.quit = false) ∧
    (strToLower (strTrim line) = "" →
      processLine backend h line = (LoopAction.ignored, h) ∧
      continuesLoop LoopAction.ignored = true) ∧
    (strToLower (strTrim line) ≠ "quit" → strToLower (strTrim line) ≠ "exit" →
      strToLower (strTrim line) ≠ "clear" → strToLower (strTrim line) ≠ "" →
      ((∀ r h2, chat backend h (strTrim line) = (Except.ok r, h2) →
          processLine backend h line = (LoopAction.answered r, h2)) ∧
       (∀ e h2, chat backend h (strTrim line) = (Except.error e, h2) →
          processLine backend h line = (LoopAction.failed e (classifyHint e), h2) ∧
          continuesLoop (LoopAction.failed e (classifyHint e)) = true))) := by
  refine ⟨fun hcmd => ⟨?_, rfl⟩, fun hcmd => ⟨?_, rfl⟩, fun hcmd => ⟨?_, rfl⟩,
    fun hne1 hne2 hne3 hne4 => ⟨fun r h2 hch => ?_, fun e h2 hch => ⟨?_, rfl⟩⟩⟩
  · simp [processLine, hcmd]
  · rcases hcmd with hcmd | hcmd <;> simp [processLine, hcmd]
  · simp [processLine, hcmd]
  · simp [processLine, hne1, hne2, hne3, hne4, hch]
  · simp [processLine, hne1, hne2, hne3, hne4, hch]

/-- Witness for C9: a failing chat call inside the loop at a concrete
query line; the loop reports the classified failure and continues. -/
theorem interactive_loop_dispatch_witness :
    processLine failBackend [] " What is Rust? " =
      (LoopAction.failed "Agent execution failed: connection refused"
        (classifyHint "Agent execution failed: connection refused"), []) ∧
    continuesLoop (LoopAction.failed "Agent execution failed: connection refused"
      (classifyHint "Agent execution failed: connection refused")) = true :=
  ((interactive_loop_dispatch failBackend [] " What is Rust? ").2.2.2
      (by decide) (by decide) (by decide) (by decide)).2
    "Agent execution failed: connection refused" [] rfl
